import Mathlib

/-!
Shallow embedding of the alert / portfolio / newsletter core of the
MustiPiyasa repository (file `notification_service.py`), used to settle the
frozen claims about its specification.

Modelling conventions:
* Python floats are modelled as rationals (`ℚ`); every concrete value used by
  the claims is far from a binary-rounding or half-even tie, so the rational
  results agree with the float results after the two-decimal rounding the
  program applies when formatting.
* The price oracle `get_market_data` is modelled as a pure function
  `String → Option MarketData` (the per-pass `price_cache` in `check_alerts`
  is semantically transparent for a pure oracle, so it is not modelled).
* Formatted message strings are modelled by records carrying exactly the
  numbers and strings interpolated into the message text.
* Python division by zero raises; the model only divides after the same
  `> 0` guards the source uses, except `percent_diff` where the source can
  divide by `target = 0`; the claims only involve positive targets.
-/

namespace MustiPiyasa

/-- Result of `market_service.get_market_data`: the fields of the returned
dict that `notification_service` reads (`price`, `currency`). -/
structure MarketData where
  price : ℚ
  currency : String
  deriving DecidableEq

/-- The oracle: `get_market_data`, returning `none` on lookup failure. -/
def Oracle : Type := String → Option MarketData

/-- A `"type": "price"` alert record, fields as built by `add_alert`. -/
structure PriceAlert where
  symbol : String
  target_price : ℚ
  condition : String
  user_id : ℕ
  created_at : ℚ
  start_price : ℚ
  current_level : ℤ
  deriving DecidableEq

/-- A `"type": "time"` alert record, fields as built by `add_time_alert`. -/
structure TimeAlert where
  trigger_timestamp : ℚ
  note : String
  user_id : ℕ
  created_at : ℚ
  duration_seconds : ℚ
  deriving DecidableEq

/-- An alert: the `type` tag distinguishes the two field sets. -/
inductive Alert where
  | price (a : PriceAlert)
  | time (t : TimeAlert)
  deriving DecidableEq

/-- The numbers and strings interpolated into the price-alarm message built
by `build_message` inside `check_alerts` (lines 616-637). -/
structure PriceMessage where
  title_suffix : String
  created_at : ℚ
  target : ℚ
  currency : String
  current_usd : ℚ
  current_try : ℚ
  total_change_pct : ℚ
  deriving DecidableEq

/-- The numbers and strings interpolated into a timer-expiry message. -/
structure TimeMessage where
  duration_seconds : ℚ
  created_at : ℚ
  note : String
  deriving DecidableEq

/-- A notification message, price or timer flavoured. -/
inductive Message where
  | priceMsg (m : PriceMessage)
  | timeMsg (m : TimeMessage)
  deriving DecidableEq

/-- A notification job emitted by `check_alerts`:
`{user_id, message, repeat_count}`. -/
structure Job where
  user_id : ℕ
  message : Message
  repeat_count : ℕ
  deriving DecidableEq

/-- A history entry: the terminal alert plus `completed_at` and
`final_message` (`none` stands for the literal `"Completed"` fallback). -/
structure HistoryEntry where
  alert : Alert
  completed_at : ℚ
  final_message : Option Message
  deriving DecidableEq

/-- `build_message` (closure inside `check_alerts`, lines 616-637).
`current_usd`/`current_try` start as the raw price; the `USD` branch fills
TRY by multiplying, the `TRY` branch fills USD by dividing (guarded), and
any other currency leaves both untouched. `total_change_pct` is guarded by
`start_price > 0`. -/
def build_message (current_price : ℚ) (currency : String) (usd_try_rate : ℚ)
    (target start_price created_at : ℚ) (title_suffix : String) : PriceMessage :=
  let current_usd := current_price
  let current_try := current_price
  let p : ℚ × ℚ :=
    if currency = "USD" then (current_usd, current_price * usd_try_rate)
    else if currency = "TRY" then
      ((if usd_try_rate > 0 then current_price / usd_try_rate else 0), current_try)
    else (current_usd, current_try)
  let total_change_pct : ℚ :=
    if start_price > 0 then ((current_price - start_price) / start_price) * 100 else 0
  { title_suffix := title_suffix
    created_at := created_at
    target := target
    currency := currency
    current_usd := p.1
    current_try := p.2
    total_change_pct := total_change_pct }

/-- Outcome of processing one price alert inside the `check_alerts` loop:
the optional trigger job, the (possibly level-advanced) alert, and the
`should_remove` flag. -/
structure PriceStep where
  job : Option Job
  alert : PriceAlert
  should_remove : Bool
  deriving DecidableEq

/-- The price-alert branch of the `check_alerts` loop (lines 597-682):
resolve the price (a `none` oracle answer keeps the alert untouched),
compute `base_met` and `percent_diff`, and run the level ladder
(`≥10 → level 2, repeat 5, remove`; `≥5 → level 1, repeat 3`;
`else → level 0, repeat 1`), each rung firing only when it is strictly
above `current_level`. -/
def priceAlertStep (oracle : Oracle) (usd_try_rate : ℚ) (a : PriceAlert) : PriceStep :=
  match oracle a.symbol with
  | none => { job := none, alert := a, should_remove := false }
  | some md =>
    let current_price := md.price
    let currency := md.currency
    let current_level := a.current_level
    let msg := fun (suffix : String) =>
      build_message current_price currency usd_try_rate a.target_price
        a.start_price a.created_at suffix
    let base_met : Bool :=
      if a.condition = "above" ∧ current_price ≥ a.target_price then true
      else if a.condition = "below" ∧ current_price ≤ a.target_price then true
      else false
    if base_met then
      let percent_diff := |current_price - a.target_price| / a.target_price * 100
      if percent_diff ≥ 10 then
        if current_level < 2 then
          { job := some
              { user_id := a.user_id
                message := .priceMsg (msg (a.symbol ++ " Hedefi %10 Aşti! (KRİTİK ARTIS)"))
                repeat_count := 5 }
            alert := { a with current_level := 2 }
            should_remove := true }
        else { job := none, alert := a, should_remove := false }
      else if percent_diff ≥ 5 then
        if current_level < 1 then
          { job := some
              { user_id := a.user_id
                message := .priceMsg (msg (a.symbol ++ " Hedefi %5 Aşti!"))
                repeat_count := 3 }
            alert := { a with current_level := 1 }
            should_remove := false }
        else { job := none, alert := a, should_remove := false }
      else
        if current_level < 0 then
          { job := some
              { user_id := a.user_id
                message := .priceMsg (msg (a.symbol ++ " Hedefi Geçti!"))
                repeat_count := 1 }
            alert := { a with current_level := 0 }
            should_remove := false }
        else { job := none, alert := a, should_remove := false }
    else { job := none, alert := a, should_remove := false }

/-- Outcome of processing one alert of either kind: the optional job, the
alert kept pending (if any), and the history entry produced (if any). -/
structure AlertStep where
  job : Option Job
  remaining : Option Alert
  archived : Option HistoryEntry
  deriving DecidableEq

/-- One iteration of the `check_alerts` loop (lines 562-700): time alerts
fire once and are archived when due; price alerts go through
`priceAlertStep`; `should_remove` routes the alert to history (with
`completed_at := now` and the trigger message as final record) instead of
the remaining list. -/
def alertStep (oracle : Oracle) (usd_try_rate now : ℚ) : Alert → AlertStep
  | .time t =>
    if now ≥ t.trigger_timestamp then
      let m : Message := .timeMsg
        { duration_seconds := t.duration_seconds
          created_at := t.created_at
          note := t.note }
      { job := some { user_id := t.user_id, message := m, repeat_count := 1 }
        remaining := none
        archived := some { alert := .time t, completed_at := now, final_message := some m } }
    else
      { job := none, remaining := some (.time t), archived := none }
  | .price a =>
    let s := priceAlertStep oracle usd_try_rate a
    if s.should_remove then
      { job := s.job
        remaining := none
        archived := some
          { alert := .price s.alert
            completed_at := now
            final_message := s.job.map Job.message } }
    else
      { job := s.job, remaining := some (.price s.alert), archived := none }

/-- The alert-engine slice of the store: pending alerts plus history. -/
structure AlertsState where
  alerts : List Alert
  history : List HistoryEntry
  deriving DecidableEq

/-- The USD/TRY rate fetched once per `check_alerts` pass: the `TRY=X`
price, defaulting to 1.0 when the oracle fails. -/
def fetchUsdTryRate (oracle : Oracle) : ℚ :=
  match oracle "TRY=X" with
  | some md => md.price
  | none => 1

/-- Accumulation of one loop iteration of `check_alerts`: extend the
triggered-jobs, remaining-alerts and history accumulators with what the
step produced for one alert. -/
def checkFoldStep (step : Alert → AlertStep)
    (acc : List Job × List Alert × List HistoryEntry) (a : Alert) :
    List Job × List Alert × List HistoryEntry :=
  let s := step a
  (acc.1 ++ s.job.toList, acc.2.1 ++ s.remaining.toList, acc.2.2 ++ s.archived.toList)

/-- `check_alerts` (lines 538-707): process every alert in collection
order, collect the triggered jobs, keep the untriggered / non-terminal
alerts pending, and append terminal alerts to history. -/
def check_alerts (oracle : Oracle) (now : ℚ) (st : AlertsState) :
    List Job × AlertsState :=
  let usd_try_rate := fetchUsdTryRate oracle
  let res := st.alerts.foldl (checkFoldStep (alertStep oracle usd_try_rate now))
    ([], [], st.history)
  (res.1, { alerts := res.2.1, history := res.2.2 })

/-! ## Store mutators: `add_alert`, `subscribe_newsletter`, `delete_alert` -/

/-- `get_price_now` (lines 58-62): current oracle price, `0.0` on failure. -/
def get_price_now (oracle : Oracle) (symbol : String) : ℚ :=
  match oracle symbol with
  | some md => md.price
  | none => 0

/-- `add_alert` (lines 33-56): append a fresh price alert with
`start_price := get_price_now symbol` and `current_level := -1`. -/
def add_alert (oracle : Oracle) (symbol : String) (target_price : ℚ)
    (condition : String) (user_id : ℕ) (now : ℚ) (alerts : List Alert) : List Alert :=
  alerts ++ [.price
    { symbol := symbol
      target_price := target_price
      condition := condition
      user_id := user_id
      created_at := now
      start_price := get_price_now oracle symbol
      current_level := -1 }]

/-- `subscribe_newsletter` (lines 193-200): append the user id to the
subscriber list only when it is not already present. -/
def subscribe_newsletter (subs : List ℕ) (user_id : ℕ) : List ℕ :=
  if user_id ∈ subs then subs else subs ++ [user_id]

/-- Owner id of an alert of either kind. -/
def alertOwner : Alert → ℕ
  | .price a => a.user_id
  | .time t => t.user_id

instance : Inhabited Alert := ⟨.time { trigger_timestamp := 0, note := "", user_id := 0, created_at := 0, duration_seconds := 0 }⟩

/-- The index-collection loop of `delete_alert` (lines 453-456):
`for i, a in enumerate(alerts): if owner matches: user_indices.append(i)`,
started at position `i`. -/
def userIndicesFrom (user : ℕ) : ℕ → List Alert → List ℕ
  | _, [] => []
  | i, a :: rest =>
    if alertOwner a = user then i :: userIndicesFrom user (i + 1) rest
    else userIndicesFrom user (i + 1) rest

/-- The three possible outcomes of `delete_alert`: the no-alerts message,
the invalid-range message (which embeds `len(user_indices)`), or a
successful deletion (whose confirmation message is rendered from the
removed alert). -/
inductive DeleteOutcome where
  | noAlerts
  | invalidRange (n : ℕ)
  | deleted (removed : Alert)
  deriving DecidableEq

/-- `delete_alert` (lines 443-486): map the 1-based index over the user's
filtered view, reject an empty view or an out-of-range index without
touching the store, otherwise erase the addressed alert from the main
list. -/
def delete_alert (alerts : List Alert) (user_id : ℕ) (alert_index : ℤ) :
    DeleteOutcome × List Alert :=
  let user_indices := userIndicesFrom user_id 0 alerts
  if user_indices = [] then (.noAlerts, alerts)
  else if alert_index < 1 ∨ alert_index > user_indices.length then
    (.invalidRange user_indices.length, alerts)
  else
    let target_main_index := user_indices.getD (alert_index - 1).toNat 0
    (.deleted (alerts.getD target_main_index default), alerts.eraseIdx target_main_index)

/-! ## Portfolio valuation (`get_portfolio_status`) -/

/-- `pat` occurs at the head of `s`. -/
def leadMatch : List Char → List Char → Bool
  | [], _ => true
  | _ :: _, [] => false
  | c :: cs, d :: ds => c = d && leadMatch cs ds

/-- `pat` occurs somewhere in `s`: the Python `pat in s` substring test. -/
def containsPat (pat : List Char) : List Char → Bool
  | [] => leadMatch pat []
  | s@(_ :: rest) => leadMatch pat s || containsPat pat rest

/-- Python `s.upper()` (all symbols and units concerned are ASCII). -/
def upStr (s : String) : String := String.mk (s.data.map Char.toUpper)

/-- Python `s.lower()` (all symbols and units concerned are ASCII). -/
def downStr (s : String) : String := String.mk (s.data.map Char.toLower)

/-- Python `s.endswith(pat)`. -/
def endsWithStr (s pat : String) : Bool :=
  leadMatch pat.data.reverse s.data.reverse

/-- The gold-recognition test used by both `get_portfolio_status`
(line 134) and `generate_newsletter` (line 365):
`"ALTIN" in symbol.upper() or "GOLD" in symbol.upper() or
symbol.upper() == "GC=F"`. -/
def goldRecognized (symbol : String) : Bool :=
  containsPat "ALTIN".data (upStr symbol).data
  || containsPat "GOLD".data (upStr symbol).data
  || upStr symbol = "GC=F"

/-- The query-symbol / multiplier adjustment both call sites perform for a
balance row: gold maps to the `GC=F` ounce future, and the gram units
`gr`/`gram`/`g` scale by `1 / 31.1035` (the constant the source uses). -/
def rowQueryMult (symbol unit : String) : String × ℚ :=
  if goldRecognized symbol then
    ("GC=F",
      if downStr unit = "gr" ∨ downStr unit = "gram" ∨ downStr unit = "g" then
        1 / (311035 / 10000 : ℚ)
      else 1)
  else (symbol, 1)

/-- One balance row of `data["balances"][user]`: symbol, amount, unit. -/
structure BalanceRow where
  symbol : String
  amount : ℚ
  unit : String
  deriving DecidableEq

/-- Value of one balance row: the "Fiyat alınamadı" line, or the USD/TRY
value pair shown in the report. -/
inductive RowValue where
  | unavailable
  | valued (val_usd val_try : ℚ)
  deriving DecidableEq

/-- The per-row body of the `get_portfolio_status` loop (lines 125-171):
gold/gram adjustment, oracle lookup, value in the asset currency, then the
USD/TRY split (`USD` multiplies, `TRY` divides with a `> 0` guard, any
other currency is assumed USD). -/
def valueRow (oracle : Oracle) (usd_try_rate : ℚ) (row : BalanceRow) : RowValue :=
  let qm := rowQueryMult row.symbol row.unit
  match oracle qm.1 with
  | none => .unavailable
  | some md =>
    let val_in_asset_curr := row.amount * qm.2 * md.price
    if md.currency = "USD" then
      .valued val_in_asset_curr (val_in_asset_curr * usd_try_rate)
    else if md.currency = "TRY" then
      .valued (if usd_try_rate > 0 then val_in_asset_curr / usd_try_rate else 0)
        val_in_asset_curr
    else
      .valued val_in_asset_curr (val_in_asset_curr * usd_try_rate)

/-- The running `(total_usd, total_try)` accumulation of
`get_portfolio_status`: unavailable rows are skipped. -/
def portfolioTotals (oracle : Oracle) (usd_try_rate : ℚ) (rows : List BalanceRow) : ℚ × ℚ :=
  rows.foldl
    (fun acc row =>
      match valueRow oracle usd_try_rate row with
      | .unavailable => acc
      | .valued u t => (acc.1 + u, acc.2 + t))
    (0, 0)

/-- Two-decimal rounding, as applied by the `:.2f` format directives. All
values the claims evaluate are far from a rounding tie, so half-even float
formatting and rational rounding agree. -/
def round2 (q : ℚ) : ℚ := (round (q * 100) : ℤ) / 100

/-! ## Snapshots and the newsletter (`save_snapshot`, `get_last_snapshot`,
`generate_newsletter`) -/

/-- A snapshot record `{timestamp, label, prices}`; the price dict is an
association list with distinct keys. -/
structure Snapshot where
  timestamp : ℚ
  label : String
  prices : List (String × ℚ)
  deriving DecidableEq

/-- Python `prices.get(sym)`: first binding of the key, if any. -/
def pricesGet (prices : List (String × ℚ)) (sym : String) : Option ℚ :=
  (prices.find? (fun p => p.1 = sym)).map Prod.snd

/-- The list mutation performed by `save_snapshot` (lines 254-262): append
the new snapshot, then keep only the last 10 (`snapshots[-10:]`) when the
list exceeds 10. -/
def save_snapshot_trim (snaps : List Snapshot) (snap : Snapshot) : List Snapshot :=
  let appended := snaps ++ [snap]
  if appended.length > 10 then appended.drop (appended.length - 10) else appended

/-- `get_last_snapshot` (lines 267-290): `none` when no snapshot exists,
else the most recent snapshot labelled opposite to `current_label`,
falling back to the very last snapshot. -/
def get_last_snapshot (snaps : List Snapshot) (current_label : String) : Option Snapshot :=
  if snaps = [] then none
  else
    let target_label := if current_label = "morning" then "evening" else "morning"
    match snaps.reverse.find? (fun s => s.label = target_label) with
    | some s => some s
    | none => snaps.getLast?

/-- The USD rate used by `generate_newsletter` (lines 320-323):
`curr_prices.get("TRY=X", 1.0)`, refetched live only when that value is
falsy (i.e. a stored `0.0`). -/
def newsletterUsdTry (oracle : Oracle) (curr_prices : List (String × ℚ)) : ℚ :=
  let usd_try := (pricesGet curr_prices "TRY=X").getD 1
  if usd_try = 0 then
    match oracle "TRY=X" with
    | some md => md.price
    | none => 1
  else usd_try

/-- One line of the "Takip Listeniz" section: previous price, current
price and percent change when both prices are present and truthy, else
the "Veri yok/yetersiz" marker (`none`). -/
structure SymLine where
  symbol : String
  data : Option (ℚ × ℚ × ℚ)
  deriving DecidableEq

/-- The per-symbol delta line of `generate_newsletter` (lines 339-350):
`if cp and pp`, i.e. both present and nonzero, render
`pct = (cp - pp) / pp * 100`. -/
def symLine (curr_prices prev_prices : List (String × ℚ)) (sym : String) : SymLine :=
  match pricesGet curr_prices sym, pricesGet prev_prices sym with
  | some cp, some pp =>
    if cp ≠ 0 ∧ pp ≠ 0 then
      { symbol := sym, data := some (pp, cp, ((cp - pp) / pp) * 100) }
    else { symbol := sym, data := none }
  | _, _ => { symbol := sym, data := none }

/-- The numbers of the "Varlık Durumu" balance section. -/
structure BalanceSection where
  total_usd_cur : ℚ
  total_usd_prev : ℚ
  diff_bal : ℚ
  pct_bal : ℚ
  total_try_cur : ℚ
  deriving DecidableEq

/-- The balance block of `generate_newsletter` (lines 354-406), embedded
exactly as written: for a TRY-inferred symbol (suffix `.IS` or `TRY=X`)
the current value is divided once by `usd_try`, while the previous value
is divided first by `usd_try` (line 390) and then again by the previous
snapshot's rate `prev_usd_rate` (line 393) — both divisions are in the
source. -/
def balanceSection (curr_prices prev_prices : List (String × ℚ)) (usd_try : ℚ)
    (rows : List BalanceRow) : BalanceSection :=
  let totals := rows.foldl
    (fun (acc : ℚ × ℚ) row =>
      let qm := rowQueryMult row.symbol row.unit
      let curr_p := (pricesGet curr_prices qm.1).getD 0
      let prev_p0 := (pricesGet prev_prices qm.1).getD 0
      let prev_p := if prev_p0 = 0 then curr_p else prev_p0
      let is_try := endsWithStr row.symbol ".IS" = true ∨ row.symbol = "TRY=X"
      let val_c0 := row.amount * qm.2 * curr_p
      let val_c := if is_try then (if usd_try > 0 then val_c0 / usd_try else 0) else val_c0
      let val_p0 := row.amount * qm.2 * prev_p
      let val_p1 := if is_try then (if usd_try > 0 then val_p0 / usd_try else 0) else val_p0
      let prev_usd_rate := (pricesGet prev_prices "TRY=X").getD 1
      let val_p :=
        if is_try then (if prev_usd_rate > 0 then val_p1 / prev_usd_rate else 0) else val_p1
      (acc.1 + val_c, acc.2 + val_p))
    (0, 0)
  let diff_bal := totals.1 - totals.2
  let pct_bal := if totals.2 > 0 then diff_bal / totals.2 * 100 else 0
  { total_usd_cur := totals.1
    total_usd_prev := totals.2
    diff_bal := diff_bal
    pct_bal := pct_bal
    total_try_cur := totals.1 * usd_try }

/-- The fixed watchlist of the "Piyasa Özeti" section (line 411). -/
def newsletterWatchlist : List String :=
  ["BIST100", "THYAO.IS", "GARAN.IS", "BTC-USD", "ETH-USD", "AAPL", "GC=F"]

/-- One mover tuple `(symbol, pct, current_price)`. -/
structure Mover where
  symbol : String
  pct : ℚ
  price : ℚ
  deriving DecidableEq

/-- The movers collection of `generate_newsletter` (lines 413-419):
watchlist entries with both prices present and truthy. -/
def moversOf (curr_prices prev_prices : List (String × ℚ)) : List Mover :=
  newsletterWatchlist.filterMap fun w =>
    match pricesGet curr_prices w, pricesGet prev_prices w with
    | some cp, some pp =>
      if cp ≠ 0 ∧ pp ≠ 0 then some { symbol := w, pct := ((cp - pp) / pp) * 100, price := cp }
      else none
    | _, _ => none

/-- Python `list(dict.fromkeys(xs))`: drop later duplicates, keeping first
occurrences in order. -/
def dedupKeepFirst {α : Type} [DecidableEq α] (xs : List α) : List α :=
  xs.foldl (fun acc x => if x ∈ acc then acc else acc ++ [x]) []

/-- The top-movers display selection (lines 423-433): stable sort by
percent change descending, then top 2 and bottom 2 (deduplicated) when
more than 4 movers exist. -/
def displayMovers (ms : List Mover) : List Mover :=
  let sorted := ms.mergeSort (fun x y => x.pct ≥ y.pct)
  if sorted.length > 4 then
    dedupKeepFirst (sorted.take 2 ++ sorted.drop (sorted.length - 2))
  else sorted

/-- The computed content of one newsletter. -/
structure Newsletter where
  label : String
  watch : List SymLine
  balance : Option BalanceSection
  topMovers : List Mover
  deriving DecidableEq

/-- `generate_newsletter` (lines 292-441), numeric content: `none` when no
snapshot exists, else current = last snapshot, previous =
`get_last_snapshot label` (falling back to current), per-symbol lines for
the user's alert and balance symbols, the balance block when the user has
balances, and the top movers. The Python `set` of relevant symbols is
modelled as an order-deduplicated list; no claim depends on its order. -/
def generate_newsletter (oracle : Oracle) (alerts : List Alert)
    (user_balances : List BalanceRow) (snaps : List Snapshot)
    (user_id : ℕ) (label : String) : Option Newsletter :=
  match snaps.getLast? with
  | none => none
  | some current_snap =>
    let prev_snap := (get_last_snapshot snaps label).getD current_snap
    let curr_prices := current_snap.prices
    let prev_prices := prev_snap.prices
    let usd_try := newsletterUsdTry oracle curr_prices
    let user_alert_syms := alerts.filterMap fun a =>
      match a with
      | .price p => if p.user_id = user_id then some p.symbol else none
      | .time _ => none
    let relevant_symbols := dedupKeepFirst (user_alert_syms ++ user_balances.map (·.symbol))
    some
      { label := label
        watch := relevant_symbols.map (symLine curr_prices prev_prices)
        balance :=
          if user_balances = [] then none
          else some (balanceSection curr_prices prev_prices usd_try user_balances)
        topMovers := displayMovers (moversOf curr_prices prev_prices) }

/-! ## Concrete instances used to settle the claims -/

/-- Iterate `check_alerts`, one pass per oracle in the list (the oracle
answer changes between polling cycles); collects the job list of every
pass. -/
def runCheckAlertsPasses (oracles : List Oracle) (now : ℚ) (st : AlertsState) :
    List (List Job) × AlertsState :=
  oracles.foldl
    (fun acc o =>
      let r := check_alerts o now acc.2
      (acc.1 ++ [r.1], r.2))
    ([], st)

/-- An oracle answering only the symbol `XAU`, in USD, at price `p`. -/
def xauOracle (p : ℚ) : Oracle :=
  fun s => if s = "XAU" then some { price := p, currency := "USD" } else none

/-- The claim C1 alert: condition `above`, target 100, freshly created. -/
def c1Alert : PriceAlert :=
  { symbol := "XAU", target_price := 100, condition := "above", user_id := 7,
    created_at := 0, start_price := 90, current_level := -1 }

/-- The four C1 evaluation passes over the price sequence
`[90, 101, 108, 115]`. -/
def c1Scenario : List (List Job) × AlertsState :=
  runCheckAlertsPasses ([90, 101, 108, 115].map xauOracle) 1000
    { alerts := [.price c1Alert], history := [] }

/-- The `repeat_count` values of all jobs emitted across the C1 passes,
in emission order. -/
def c1RepeatCounts : List ℕ := c1Scenario.1.flatten.map Job.repeat_count

/-- C2 witness oracle: `XAU` just above target so level 0 fires. -/
def c2Oracle : Oracle := xauOracle 101

/-- C2 witness alert: fresh `above`-100 alert on `XAU`. -/
def c2Alert : PriceAlert :=
  { symbol := "XAU", target_price := 100, condition := "above", user_id := 9,
    created_at := 0, start_price := 95, current_level := -1 }

/-- C3 oracle: gold future at 2000 USD/oz, USD/TRY rate 30. -/
def c3Oracle : Oracle := fun s =>
  if s = "GC=F" then some { price := 2000, currency := "USD" }
  else if s = "TRY=X" then some { price := 30, currency := "TRY" }
  else none

/-- The C3 balance row: 311.034768 grams of `ALTIN`. -/
def c3Row : BalanceRow :=
  { symbol := "ALTIN", amount := 311034768 / 1000000, unit := "gram" }

/-- An always-failing oracle. -/
def failOracle : Oracle := fun _ => none

/-- C5/C10 witness alert (symbol the failing oracle cannot resolve). -/
def c5Alert : PriceAlert :=
  { symbol := "BTC-USD", target_price := 50000, condition := "above", user_id := 3,
    created_at := 10, start_price := 48000, current_level := 0 }

/-- C6 witness alert, owned by user 7. -/
def c6Alert : PriceAlert :=
  { symbol := "THYAO.IS", target_price := 300, condition := "above", user_id := 7,
    created_at := 0, start_price := 250, current_level := -1 }

/-- The single snapshot of the C7 failing input: morning prices for a
TRY-denominated stock and the `TRY=X` rate (reachable via `save_snapshot`
when some alert or balance references `TRY=X`). -/
def c7Snap : Snapshot :=
  { timestamp := 500, label := "morning",
    prices := [("THYAO.IS", 300), ("TRY=X", 30)] }

/-- The C7 user's balances: one lot of a `.IS` (TRY) stock. -/
def c7Rows : List BalanceRow := [{ symbol := "THYAO.IS", amount := 1, unit := "adet" }]

/-! ## Claim theorems -/

/- Batteries marks the `Rat` arithmetic operations `@[irreducible]`, which
blocks `decide` from evaluating concrete rational computations; restore
default reducibility for them (proof terms still pass the kernel, which
never consults reducibility attributes). -/
attribute [local semireducible] Rat.add Rat.mul Rat.sub Rat.inv Rat.ofScientific

/-- C1, counterexample: over the oracle price sequence `[90, 101, 108, 115]`
the emitted jobs do NOT carry the repeat counts `[1, 1, 5]` the claim
states — the level-1 job fires with `repeat_count = 3`. -/
theorem c1_repeat_counts_not_1_1_5 : c1RepeatCounts ≠ [1, 1, 5] := by decide

/-- C1, amended: the four passes emit exactly three jobs, with
`repeat_count` sequence `[1, 3, 5]` (per pass: none, then 1, 3, 5), and
after the third job the alert has left the pending collection and sits in
history at level 2. -/
theorem c1_price_ladder_scenario :
    c1RepeatCounts = [1, 3, 5]
    ∧ c1Scenario.1.map (List.map Job.repeat_count) = [[], [1], [3], [5]]
    ∧ c1Scenario.2.alerts = []
    ∧ c1Scenario.2.history.map HistoryEntry.alert
      = [.price { c1Alert with current_level := 2 }] := by
  decide

/-- Every alert left pending by the `check_alerts` fold either was already
in the accumulator or is the `remaining` output of `alertStep` on some
input alert. -/
theorem mem_checkFold_remaining (step : Alert → AlertStep) :
    ∀ (l : List Alert) (acc : List Job × List Alert × List HistoryEntry) (a' : Alert),
      a' ∈ (l.foldl (checkFoldStep step) acc).2.1 →
      a' ∈ acc.2.1 ∨ ∃ a ∈ l, (step a).remaining = some a' := by
  intro l
  induction l with
  | nil => intro acc a' h; exact Or.inl h
  | cons b t ih =>
    intro acc a' h
    rcases ih _ a' h with h1 | ⟨a, ha, hstep⟩
    · simp only [checkFoldStep, List.mem_append, Option.mem_toList, Option.mem_def] at h1
      rcases h1 with h1 | h1
      · exact Or.inl h1
      · exact Or.inr ⟨b, by simp, h1⟩
    · exact Or.inr ⟨a, by simp [ha], hstep⟩

/-- C2: a price alert's `current_level` never decreases in one evaluation
step, a notification job is emitted only together with a strict level
increase (so never for a level at or below the starting `current_level`),
and every alert still pending after a `check_alerts` pass is the step
image of some alert of the input store — hence levels are non-decreasing
across successive `check_alerts` calls. -/
theorem current_level_monotone :
    (∀ (oracle : Oracle) (usd_try_rate : ℚ) (a : PriceAlert),
        a.current_level ≤ (priceAlertStep oracle usd_try_rate a).alert.current_level
        ∧ ((priceAlertStep oracle usd_try_rate a).job.isSome = true →
            a.current_level < (priceAlertStep oracle usd_try_rate a).alert.current_level))
    ∧ (∀ (oracle : Oracle) (now : ℚ) (st : AlertsState) (a' : Alert),
        a' ∈ (check_alerts oracle now st).2.alerts →
        ∃ a ∈ st.alerts,
          (alertStep oracle (fetchUsdTryRate oracle) now a).remaining = some a') := by
  constructor
  · intro oracle usd_try_rate a
    unfold priceAlertStep
    cases hm : oracle a.symbol with
    | none => simp
    | some md =>
      dsimp only
      split_ifs <;> simp_all <;> omega
  · intro oracle now st a' h
    have hm := mem_checkFold_remaining (alertStep oracle (fetchUsdTryRate oracle) now)
      st.alerts ([], [], st.history) a' (by simpa [check_alerts] using h)
    simpa using hm

/-- C2 witness: on a concrete fresh alert the step raises the level from
-1 to 0 while emitting a job, and after a concrete `check_alerts` pass the
pending alert is the step image of the stored alert. -/
theorem current_level_monotone_witness :
    c2Alert.current_level < (priceAlertStep c2Oracle 1 c2Alert).alert.current_level
    ∧ ∃ a ∈ [Alert.price c2Alert],
        (alertStep c2Oracle (fetchUsdTryRate c2Oracle) 5 a).remaining
          = some (Alert.price { c2Alert with current_level := 0 }) :=
  ⟨(current_level_monotone.1 c2Oracle 1 c2Alert).2 (by decide),
   current_level_monotone.2 c2Oracle 5 { alerts := [.price c2Alert], history := [] }
     (Alert.price { c2Alert with current_level := 0 }) (by decide)⟩

/-- C3, counterexample: the gram multiplier of the code is not
`1 / 31.1034768`, and the claimed example does not round to 20000 USD /
600000 TRY — two-decimal rounding of the computed totals gives 19999.99
and 599999.55. -/
theorem c3_divisor_counterexample :
    (rowQueryMult "ALTIN" "gram").2 ≠ 1 / (311034768 / 10000000 : ℚ)
    ∧ round2 (portfolioTotals c3Oracle 30 [c3Row]).1 ≠ 20000
    ∧ round2 (portfolioTotals c3Oracle 30 [c3Row]).2 ≠ 600000 := by
  decide

/-- C3, amended: the troy-ounce divisor the code applies is `31.1035`; a
gold balance row in grams is valued as `amount / 31.1035 × price`, and the
claimed example (311.034768 g at 2000 USD/oz, rate 30) yields totals that
round to 19999.99 USD and 599999.55 TRY (approximately, but not exactly,
10 oz worth). -/
theorem c3_gold_gram_valuation :
    (∀ (amount price usd_try_rate : ℚ),
        valueRow
          (fun s => if s = "GC=F" then some { price := price, currency := "USD" } else none)
          usd_try_rate { symbol := "ALTIN", amount := amount, unit := "gram" }
        = .valued (amount * (1 / (311035 / 10000)) * price)
            (amount * (1 / (311035 / 10000)) * price * usd_try_rate))
    ∧ portfolioTotals c3Oracle 30 [c3Row] = (1244139072 / 62207, 37324172160 / 62207)
    ∧ round2 (portfolioTotals c3Oracle 30 [c3Row]).1 = 1999999 / 100
    ∧ round2 (portfolioTotals c3Oracle 30 [c3Row]).2 = 11999991 / 20 := by
  refine ⟨fun amount price usd_try_rate => rfl, by decide, by decide, by decide⟩

/-- C4, counterexample: for an oracle currency that is neither `USD` nor
`TRY` (here `EUR`, price 100, rate 30) the message shows a TRY value of
100 — the raw price — not `100 × 30` as the claim states. -/
theorem c4_unknown_currency_counterexample :
    (build_message 100 "EUR" 30 90 80 0 "t").current_try = 100
    ∧ (build_message 100 "EUR" 30 90 80 0 "t").current_try ≠ 100 * 30 := by
  decide

/-- C4, amended: when the oracle-reported currency is neither `USD` nor
`TRY`, `build_message` applies no conversion at all: both the displayed
USD and the displayed TRY value equal the raw current price. -/
theorem c4_unknown_currency_no_conversion (current_price usd_try_rate : ℚ)
    (target start_price created_at : ℚ) (suffix currency : String)
    (hu : currency ≠ "USD") (ht : currency ≠ "TRY") :
    (build_message current_price currency usd_try_rate target start_price
        created_at suffix).current_usd = current_price
    ∧ (build_message current_price currency usd_try_rate target start_price
        created_at suffix).current_try = current_price := by
  unfold build_message
  simp [hu, ht]

/-- C4 witness: the amended statement at the concrete `EUR` message. -/
theorem c4_unknown_currency_no_conversion_witness :
    (build_message 100 "EUR" 30 90 80 0 "t").current_usd = 100
    ∧ (build_message 100 "EUR" 30 90 80 0 "t").current_try = 100 :=
  c4_unknown_currency_no_conversion 100 30 90 80 0 "t" "EUR"
    (by decide) (by decide)

/-- C5: when the oracle cannot resolve a price alert's symbol, the
`check_alerts` loop body emits no job, keeps the alert pending completely
unchanged, and archives nothing; consequently a pass over a store holding
only that alert returns no jobs and leaves the store intact. -/
theorem oracle_failure_keeps_alert (oracle : Oracle) (usd_try_rate now : ℚ)
    (a : PriceAlert) (h : oracle a.symbol = none) :
    alertStep oracle usd_try_rate now (.price a)
      = { job := none, remaining := some (.price a), archived := none }
    ∧ ∀ history, check_alerts oracle now { alerts := [.price a], history := history }
      = ([], { alerts := [.price a], history := history }) := by
  have hstep : priceAlertStep oracle usd_try_rate a
      = { job := none, alert := a, should_remove := false } := by
    unfold priceAlertStep
    rw [h]
  have hstep2 : ∀ r, priceAlertStep oracle r a
      = { job := none, alert := a, should_remove := false } := by
    intro r
    unfold priceAlertStep
    rw [h]
  constructor
  · simp only [alertStep]
    rw [hstep]
    simp
  · intro history
    simp only [check_alerts, List.foldl, checkFoldStep, alertStep, hstep2]
    simp

/-- C5 witness: the failing oracle on a concrete pending alert. -/
theorem oracle_failure_keeps_alert_witness :
    alertStep failOracle 1 50 (.price c5Alert)
      = { job := none, remaining := some (.price c5Alert), archived := none }
    ∧ ∀ history, check_alerts failOracle 50 { alerts := [.price c5Alert], history := history }
      = ([], { alerts := [.price c5Alert], history := history }) :=
  oracle_failure_keeps_alert failOracle 1 50 c5Alert (by decide)

/-- Shifting the start position of the index-collection loop shifts every
collected index. -/
theorem userIndicesFrom_shift (user : ℕ) :
    ∀ (l : List Alert) (i : ℕ),
      userIndicesFrom user (i + 1) l = (userIndicesFrom user i l).map (· + 1) := by
  intro l
  induction l with
  | nil => intro i; rfl
  | cons a t ih =>
    intro i
    by_cases hp : alertOwner a = user
    · simp [userIndicesFrom, hp, ih (i + 1)]
    · simp [userIndicesFrom, hp, ih (i + 1)]

/-- The loop collects one index per alert of the user, wherever it
starts. -/
theorem userIndicesFrom_length (user : ℕ) :
    ∀ (l : List Alert) (i : ℕ),
      (userIndicesFrom user i l).length
        = (l.filter (fun a => alertOwner a = user)).length := by
  intro l
  induction l with
  | nil => intro i; rfl
  | cons a t ih =>
    intro i
    by_cases hp : alertOwner a = user
    · simp [userIndicesFrom, hp, List.filter_cons, ih (i + 1)]
    · simp [userIndicesFrom, hp, List.filter_cons, ih (i + 1)]

/-- When the user owns exactly one alert, the index view is a singleton
`[i]`; position `i` holds that alert and erasing it leaves the user with
no alerts. -/
theorem userIndices_singleton (user : ℕ) :
    ∀ (l : List Alert),
      (l.filter (fun a => alertOwner a = user)).length = 1 →
      ∃ i, userIndicesFrom user 0 l = [i] ∧ i < l.length
        ∧ alertOwner (l.getD i default) = user
        ∧ (l.eraseIdx i).filter (fun a => alertOwner a = user) = [] := by
  intro l
  induction l with
  | nil => intro h; simp at h
  | cons a t ih =>
    intro h
    by_cases hp : alertOwner a = user
    · have hfil : (a :: t).filter (fun x => alertOwner x = user)
          = a :: t.filter (fun x => alertOwner x = user) := by
        simp [List.filter_cons, hp]
      have ht : (t.filter (fun a => alertOwner a = user)).length = 0 := by
        rw [hfil] at h
        simpa using h
      have htnil : t.filter (fun a => alertOwner a = user) = [] :=
        List.eq_nil_of_length_eq_zero ht
      have hui : userIndicesFrom user 1 t = [] := by
        have := userIndicesFrom_length user t 1
        rw [ht] at this
        exact List.eq_nil_of_length_eq_zero this
      exact ⟨0, by simp [userIndicesFrom, hp, hui], by simp, by simpa using hp,
        by simpa using htnil⟩
    · have ht : (t.filter (fun a => alertOwner a = user)).length = 1 := by
        simpa [List.filter_cons, hp] using h
      obtain ⟨i, h1, h2, h3, h4⟩ := ih ht
      refine ⟨i + 1, ?_, by simpa using h2, by simpa using h3, ?_⟩
      · simp [userIndicesFrom, hp, userIndicesFrom_shift user t 0, h1]
      · simpa [List.eraseIdx_cons_succ, List.filter_cons, hp] using h4

/-- C6: for a user owning exactly one alert, `delete_alert` with index 1
removes exactly that alert (the user's filtered list becomes empty), while
index 2 yields the invalid-range outcome (with bound 1) and leaves the
alert list entirely unchanged. -/
theorem delete_alert_spec (alerts : List Alert) (user_id : ℕ)
    (h1 : (alerts.filter (fun a => alertOwner a = user_id)).length = 1) :
    (∃ i, i < alerts.length ∧ alertOwner (alerts.getD i default) = user_id
      ∧ delete_alert alerts user_id 1 = (.deleted (alerts.getD i default), alerts.eraseIdx i)
      ∧ (alerts.eraseIdx i).filter (fun a => alertOwner a = user_id) = [])
    ∧ delete_alert alerts user_id 2 = (.invalidRange 1, alerts) := by
  obtain ⟨i, hui, hlt, hown, herase⟩ := userIndices_singleton user_id alerts h1
  constructor
  · refine ⟨i, hlt, hown, ?_, herase⟩
    unfold delete_alert
    rw [hui]
    simp
  · unfold delete_alert
    rw [hui]
    simp

/-- C6 witness: a store holding exactly one alert, owned by user 7. -/
theorem delete_alert_spec_witness :
    (∃ i, i < [Alert.price c6Alert].length
      ∧ alertOwner ([Alert.price c6Alert].getD i default) = 7
      ∧ delete_alert [Alert.price c6Alert] 7 1
          = (.deleted ([Alert.price c6Alert].getD i default), [Alert.price c6Alert].eraseIdx i)
      ∧ ([Alert.price c6Alert].eraseIdx i).filter (fun a => alertOwner a = 7) = [])
    ∧ delete_alert [Alert.price c6Alert] 7 2 = (.invalidRange 1, [Alert.price c6Alert]) :=
  delete_alert_spec [Alert.price c6Alert] 7 (by decide)

/-- C7, evaluation at the failing input: with no snapshot the generator
returns `none`; with exactly one snapshot the comparison snapshot IS the
current snapshot and the per-symbol delta is 0 — yet the balance change is
`29/3` USD, not zero, because the previous value of the TRY-denominated
holding is divided by the exchange rate twice (lines 390 and 393). -/
theorem c7_single_snapshot_balance_diff :
    generate_newsletter failOracle [] c7Rows [] 7 "morning" = none
    ∧ get_last_snapshot [c7Snap] "morning" = some c7Snap
    ∧ (generate_newsletter failOracle [] c7Rows [c7Snap] 7 "morning").map
        (fun r => r.watch.map SymLine.data) = some [some (300, 300, 0)]
    ∧ (generate_newsletter failOracle [] c7Rows [c7Snap] 7 "morning").map
        (fun r => r.balance.map BalanceSection.diff_bal) = some (some (29 / 3))
    ∧ (29 / 3 : ℚ) ≠ 0 := by
  decide

/-- C8: after every `save_snapshot` trim the stored list has at most 10
entries, ends with the snapshot just taken, and equals the most-recent
suffix of the appended list (older entries dropped from the front, none
reordered). -/
theorem save_snapshot_bounded (snaps : List Snapshot) (snap : Snapshot) :
    (save_snapshot_trim snaps snap).length ≤ 10
    ∧ (save_snapshot_trim snaps snap).getLast? = some snap
    ∧ save_snapshot_trim snaps snap
        = (snaps ++ [snap]).drop ((snaps ++ [snap]).length - 10) := by
  unfold save_snapshot_trim
  by_cases hlen : (snaps ++ [snap]).length > 10
  · rw [if_pos hlen]
    have hk : (snaps ++ [snap]).length - 10 ≤ snaps.length := by
      simp only [List.length_append, List.length_cons, List.length_nil]
      omega
    have hsplit : (snaps ++ [snap]).drop ((snaps ++ [snap]).length - 10)
        = snaps.drop ((snaps ++ [snap]).length - 10) ++ [snap] := by
      rw [List.drop_append_eq_append_drop]
      have : (snaps ++ [snap]).length - 10 - snaps.length = 0 := by omega
      rw [this, List.drop_zero]
    refine ⟨?_, ?_, rfl⟩
    · rw [List.length_drop]
      omega
    · rw [hsplit, List.getLast?_concat]
  · rw [if_neg hlen]
    have hlen' : snaps.length + 1 ≤ 10 := by
      simp only [List.length_append, List.length_cons, List.length_nil, gt_iff_lt,
        not_lt] at hlen
      omega
    have h0 : (snaps ++ [snap]).length - 10 = 0 := by
      simp only [List.length_append, List.length_cons, List.length_nil]
      omega
    refine ⟨?_, List.getLast?_concat snaps, ?_⟩
    · simp only [List.length_append, List.length_cons, List.length_nil]
      omega
    · rw [h0, List.drop_zero]

/-- C9, counterexample: on a store state whose subscriber list already
holds the user twice, subscribing twice leaves two entries, not exactly
one. -/
theorem c9_duplicate_state_counterexample :
    (subscribe_newsletter (subscribe_newsletter [7, 7] 7) 7).count 7 ≠ 1 := by
  decide

/-- C9, amended: subscribing twice is always identical to subscribing
once, and whenever the user occurs at most once in the stored list (true
of every state the subscribe/unsubscribe operations can produce, which
never insert duplicates), a single subscribe leaves exactly one entry for
the user. -/
theorem subscribe_newsletter_idempotent (subs : List ℕ) (user_id : ℕ) :
    subscribe_newsletter (subscribe_newsletter subs user_id) user_id
      = subscribe_newsletter subs user_id
    ∧ (subs.count user_id ≤ 1 →
        (subscribe_newsletter subs user_id).count user_id = 1) := by
  constructor
  · unfold subscribe_newsletter
    by_cases h : user_id ∈ subs
    · simp [h]
    · simp [h]
  · intro hc
    unfold subscribe_newsletter
    by_cases h : user_id ∈ subs
    · rw [if_pos h]
      have h1 : 0 < subs.count user_id := List.count_pos_iff.mpr h
      omega
    · rw [if_neg h]
      simp [List.count_append, List.count_eq_zero_of_not_mem h]

/-- C9 witness: subscribing user 5 on the empty store. -/
theorem subscribe_newsletter_idempotent_witness :
    subscribe_newsletter (subscribe_newsletter [] 5) 5 = subscribe_newsletter [] 5
    ∧ (subscribe_newsletter [] 5).count 5 = 1 :=
  ⟨(subscribe_newsletter_idempotent [] 5).1,
   (subscribe_newsletter_idempotent [] 5).2 (by decide)⟩

/-- Change-percent guard of `build_message`: with a zero `start_price` the
reported change relative to start is 0. -/
theorem build_message_zero_start (current_price : ℚ) (currency : String)
    (usd_try_rate target created_at : ℚ) (suffix : String) :
    (build_message current_price currency usd_try_rate target 0 created_at
      suffix).total_change_pct = 0 := by
  simp [build_message]

/-- C10: when the oracle cannot resolve the symbol at creation time,
`add_alert` still appends the alert, with `start_price` stored as `0` (and
`current_level = -1`); and every job a later evaluation step emits for an
alert whose `start_price` is `0` carries a message whose
change-relative-to-start percentage is `0`. -/
theorem add_alert_oracle_failure (oracle : Oracle) (symbol : String)
    (target_price : ℚ) (condition : String) (user_id : ℕ) (now : ℚ)
    (alerts : List Alert) (h : oracle symbol = none) :
    add_alert oracle symbol target_price condition user_id now alerts
      = alerts ++ [.price { symbol := symbol,
                            target_price := target_price,
                            condition := condition,
                            user_id := user_id,
                            created_at := now,
                            start_price := 0,
                            current_level := -1 }]
    ∧ ∀ (o2 : Oracle) (rate : ℚ) (a : PriceAlert) (j : Job),
        a.start_price = 0 → (priceAlertStep o2 rate a).job = some j →
        ∃ m, j.message = .priceMsg m ∧ m.total_change_pct = 0 := by
  constructor
  · unfold add_alert get_price_now
    rw [h]
  · intro o2 rate a j hsp hj
    unfold priceAlertStep at hj
    cases hm : o2 a.symbol with
    | none => rw [hm] at hj; simp at hj
    | some md =>
      rw [hm] at hj
      dsimp only at hj
      split_ifs at hj <;> simp only [Option.some.injEq] at hj <;>
        first
          | exact absurd hj (by simp)
          | exact ⟨_, by rw [← hj], by rw [hsp] at *; exact build_message_zero_start ..⟩

/-- C10 witness: adding an alert through the failing oracle, and a level-0
job fired for a zero-`start_price` alert reporting a 0 change percent. -/
theorem add_alert_oracle_failure_witness :
    add_alert failOracle "DOGE" 5 "above" 4 100 []
      = [.price { symbol := "DOGE",
                  target_price := 5,
                  condition := "above",
                  user_id := 4,
                  created_at := 100,
                  start_price := 0,
                  current_level := -1 }]
    ∧ ∃ m, (Job.message { user_id := 9,
                          message := .priceMsg (build_message 101 "USD" 1 100 0 0
                            ("XAU" ++ " Hedefi Geçti!")),
                          repeat_count := 1 }) = .priceMsg m
        ∧ m.total_change_pct = 0 :=
  ⟨(add_alert_oracle_failure failOracle "DOGE" 5 "above" 4 100 [] (by decide)).1,
   (add_alert_oracle_failure failOracle "DOGE" 5 "above" 4 100 [] (by decide)).2
     c2Oracle 1 { c2Alert with start_price := 0 } _ (by decide) (by decide)⟩

end MustiPiyasa
